import Mathlib

/-!
Shallow embedding of the BSMBC school broadcast control system
(packet codec, device-state store, transport client, broadcast queue),
translated from the Python sources:

- app/services/packet_base.py       (PacketBase: constants, checksum, validate_packet)
- app/services/packet_parser.py     (PacketParser: response validation, status parsing)
- bsbc/app/services/packet_builder.py (PacketBuilder: builder checksum, state payload)
- bsbc/app/core/device_mapping.py   (DeviceMapper.get_byte_bit_position)
- bsbc/app/services/broadcast_manager.py (BroadcastManager state machine)
- app/services/network.py           (NetworkManager send paths)
- app/services/broadcast_controller.py (BroadcastJob durations, queue worker, stop)

Packets are byte strings, embedded as `List Nat` with each byte in `[0, 256)`.
Network and clock effects are made explicit: every socket round trip is an
oracle boolean (did the TCP send succeed), and socket traffic is recorded as a
trace of events.
-/

namespace BSMBC

/-! ## PacketBase (app/services/packet_base.py) -/

/-- Header of an outbound control frame: `bytes.fromhex("022d00")`. -/
def HEADER : List Nat := [0x02, 0x2d, 0x00]

/-- Command field of an outbound control frame: `bytes.fromhex("43420100000000")`. -/
def COMMAND : List Nat := [0x43, 0x42, 0x01, 0x00, 0x00, 0x00, 0x00]

/-- Frame terminator: `bytes.fromhex("0300")`. -/
def FOOTER : List Nat := [0x03, 0x00]

/-- Response-frame header (packet_parser.py): `bytes.fromhex("022c00")`. -/
def RESPONSE_HEADER : List Nat := [0x02, 0x2c, 0x00]

/-- Response-frame command (packet_parser.py): `bytes.fromhex("53420000000000")`. -/
def RESPONSE_COMMAND : List Nat := [0x53, 0x42, 0x00, 0x00, 0x00, 0x00, 0x00]

/-- The `BYTE_MAP` dict of `PacketBase`: (row, column-group) to byte position.
Rows are 1..4, group 0 is columns 1..8, group 1 is columns 9..16.
The catch-all 0 is unreachable for the keys the source ever uses
(a missing key would raise `KeyError` in Python). -/
def BYTE_MAP : Nat × Nat → Nat
  | (1, 0) => 10 | (1, 1) => 11
  | (2, 0) => 14 | (2, 1) => 15
  | (3, 0) => 18 | (3, 1) => 19
  | (4, 0) => 22 | (4, 1) => 23
  | _ => 0

/-- XOR of a list of bytes, `checksum ^= packet[i]` style. -/
def xorList (l : List Nat) : Nat := l.foldl Nat.xor 0

/-- PacketBase.calculate_checksum: XOR of bytes 0..42 (`for i in range(0, 43)`). -/
def calculate_checksum (p : List Nat) : Nat := xorList (p.take 43)

/-- PacketBase.validate_packet: length 46, header, checksum at byte 43, footer. -/
def validate_packet (p : List Nat) : Bool :=
  if p.length ≠ 46 then false
  else if p.take 3 ≠ HEADER then false
  else if calculate_checksum p ≠ p.getD 43 0 then false
  else if (p.drop 44).take 2 ≠ FOOTER then false
  else true

/-! ## PacketParser (app/services/packet_parser.py) -/

/-- Footer branch of `_validate_response_packet`: a 44-byte packet must end in
0x03 at byte 43, anything longer must carry the 2-byte footer at 44..45. -/
def footer_ok (p : List Nat) : Bool :=
  if p.length = 44 then p.getD 43 0 = 0x03
  else (p.drop 44).take 2 = FOOTER

/-- PacketParser._validate_response_packet: accepts both the request framing
(header 02 2d 00, plain XOR checksum) and the response framing
(header 02 2c 00, checksum `(XOR + 0x03) & 0xFF`). -/
def validate_response_packet (p : List Nat) : Bool :=
  if p.length < 44 then false
  else if p.take 3 = HEADER then
    if (p.drop 3).take 7 ≠ COMMAND then false
    else if calculate_checksum p ≠ p.getD 43 0 then false
    else footer_ok p
  else if p.take 3 = RESPONSE_HEADER then
    if (p.drop 3).take 7 ≠ RESPONSE_COMMAND then false
    else if (calculate_checksum p + 0x03) % 256 ≠ p.getD 43 0 then false
    else footer_ok p
  else false

/-- Bit scan of one (row, group) state byte: the inner
`for bit_pos in range(8): if byte_value & (1 << bit_pos)` loop. -/
def scan_byte (row group byteValue : Nat) : List (Nat × Nat) :=
  (List.range 8).filterMap (fun bitPos =>
    if byteValue &&& (1 <<< bitPos) ≠ 0 then
      some (row, if group = 0 then bitPos + 1 else bitPos + 9)
    else none)

/-- PacketParser.parse_device_status_packet: length and validity guards, then a
row-major scan of the state bytes, returning `(row, col)` pairs in scan order. -/
def parse_device_status_packet (p : List Nat) : List (Nat × Nat) :=
  if p.length < 44 then []
  else if ¬ validate_response_packet p then []
  else
    (List.range 4).foldr (fun r acc =>
      (List.range 2).foldr (fun group acc2 =>
        scan_byte (r + 1) group (p.getD (BYTE_MAP (r + 1, group)) 0) ++ acc2) [] ++ acc) []

/-- PacketParser.parse_device_status_packet_to_rooms: the set
`row * 100 + col` over the parsed coordinates. -/
def parse_device_status_packet_to_rooms (p : List Nat) : Finset Nat :=
  ((parse_device_status_packet p).map (fun rc => rc.1 * 100 + rc.2)).toFinset

end BSMBC

namespace BSMBC.Builder

/-! ## PacketBuilder (bsbc/app/services/packet_builder.py) and
DeviceMapper.get_byte_bit_position (bsbc/app/core/device_mapping.py) -/

/-- PacketBuilder.calculate_checksum: XOR of bytes 0..22 only
(`for i in range(0, 23)`), unlike the parser-side checksum over 0..42. -/
def calculate_checksum (p : List Nat) : Nat := BSMBC.xorList (p.take 23)

/-- DeviceMapper.get_byte_bit_position (0-indexed row/col):
`bit_pos = col % 8`, `byte_pos = 10 + row*4 + (1 if col >= 8 else 0)`.
Returns (byte_pos, bit_pos). -/
def get_byte_bit_position (row col : Nat) : Nat × Nat :=
  (10 + row * 4 + (if col ≥ 8 then 1 else 0), col % 8)

/-- The `special_room_coords` dict inside create_current_state_payload,
mapping special-space IDs ≥ 1000 to 0-indexed (row, col). -/
def special_room_coords : Nat → Option (Nat × Nat)
  | 1001 => some (2, 0) | 1002 => some (2, 1) | 1003 => some (2, 2) | 1004 => some (2, 3)
  | 1005 => some (2, 4) | 1006 => some (2, 5) | 1007 => some (2, 6) | 1008 => some (2, 7)
  | 1013 => some (3, 0) | 1014 => some (3, 1) | 1015 => some (3, 2) | 1016 => some (3, 3)
  | 1017 => some (3, 4) | 1018 => some (3, 5) | 1019 => some (3, 6) | 1020 => some (3, 7)
  | 1021 => some (4, 0) | 1022 => some (4, 1) | 1023 => some (4, 2) | 1024 => some (4, 3)
  | _ => none

/-- Python `payload[byte_pos] |= (1 << bit_pos)` on a bytearray. -/
def setBit (p : List Nat) (bytePos bitPos : Nat) : List Nat :=
  p.set bytePos (p.getD bytePos 0 ||| (1 <<< bitPos))

/-- One iteration of the `for room_id in active_rooms` loop of
create_current_state_payload: regular classrooms 100..999 are mapped through
the grade/class branch (grades 1..3, classes 1..4 only, every other ID is
skipped with a warning), IDs ≥ 1000 through `special_room_coords`. -/
def apply_room (p : List Nat) (roomId : Nat) : List Nat :=
  if 100 ≤ roomId ∧ roomId < 1000 then
    let grade := roomId / 100
    let classNum := roomId % 100
    if grade < 1 ∨ grade > 3 then p
    else if classNum < 1 ∨ classNum > 4 then p
    else
      let rc : Nat × Nat :=
        if grade = 1 then (0, classNum - 1)
        else if grade = 2 then (0, classNum + 7)
        else (1, classNum - 1)
      let bb := get_byte_bit_position rc.1 rc.2
      setBit p bb.1 bb.2
  else if 1000 ≤ roomId then
    match special_room_coords roomId with
    | some rc =>
      let bb := get_byte_bit_position rc.1 rc.2
      setBit p bb.1 bb.2
    | none => p
  else p

/-- The zero-filled 46-byte payload with header and command installed:
`bytearray(46)` with `payload[0:3]` and `payload[3:10]` assigned. -/
def basePayload : List Nat := BSMBC.HEADER ++ BSMBC.COMMAND ++ List.replicate 36 0

/-- Tail of every builder function: compute the builder checksum, then set
bytes 42..45 to `00, checksum, 03, 00`. -/
def finalize (p : List Nat) : List Nat :=
  let checksum := calculate_checksum p
  (((p.set 42 0x00).set 43 checksum).set 44 0x03).set 45 0x00

/-- PacketBuilder.create_current_state_payload. The Python argument is a set
of room IDs; the list argument here fixes one iteration order of that set
(the payload is order-independent because bits are only ORed in). -/
def create_current_state_payload (rooms : List Nat) : List Nat :=
  if rooms = [] then finalize basePayload
  else finalize (rooms.foldl apply_room basePayload)

end BSMBC.Builder

namespace BSMBC.Manager

/-! ## BroadcastManager (bsbc/app/services/broadcast_manager.py)

The store keeps a 4×16 `device_matrix` dict of `DeviceStatus` (a two-valued
enum, embedded as `Bool`, `true` = ON) and the derived `active_rooms` set.
Every mutation builds the new state and then performs one TCP round trip
(`network_manager.send_current_state_packet`); the outcome of that round trip
is an oracle boolean passed in explicitly (an exception inside the call is
caught and takes the same rollback path as a `False` return, so one boolean
covers both). -/

structure BMState where
  matrix : Nat × Nat → Bool
  activeRooms : Finset Nat
  packetSentCount : Nat

/-- Fresh manager state: `_initialize_device_matrix` sets every cell of the
4×16 grid to OFF and `active_rooms` starts empty. -/
def initialState : BMState :=
  { matrix := fun _ => false, activeRooms := ∅, packetSentCount := 0 }

/-- BroadcastManager._validate_coordinates. -/
def validate_coordinates (row col : Nat) : Bool :=
  1 ≤ row ∧ row ≤ 4 ∧ 1 ≤ col ∧ col ≤ 16

/-- BroadcastManager._coordinates_to_room. -/
def coordinates_to_room (row col : Nat) : Nat := row * 100 + col

/-- BroadcastManager._room_to_coordinates: `row = id // 100`, `col = id % 100`. -/
def room_to_coordinates (roomId : Nat) : Nat × Nat := (roomId / 100, roomId % 100)

/-- BroadcastManager.turn_on_device. On send failure the source rolls the
matrix cell back with `self.device_matrix[(row, col)] = DeviceStatus.OFF`
(a constant, not the saved prior value) and restores the saved copy of
`active_rooms`; this embedding reproduces that literally. -/
def turn_on_device (s : BMState) (row col : Nat) (sendOk : Bool) : Bool × BMState :=
  if ¬ validate_coordinates row col then (false, s)
  else
    let roomId := coordinates_to_room row col
    let s1 : BMState :=
      { s with matrix := Function.update s.matrix (row, col) true,
               activeRooms := insert roomId s.activeRooms }
    if sendOk then
      (true, { s1 with packetSentCount := s1.packetSentCount + 1 })
    else
      (false, { s1 with matrix := Function.update s1.matrix (row, col) false,
                        activeRooms := s.activeRooms })

/-- BroadcastManager.turn_off_device. Here the source does save
`previous_status = self.device_matrix[(row, col)]` and restores it on
rollback. -/
def turn_off_device (s : BMState) (row col : Nat) (sendOk : Bool) : Bool × BMState :=
  if ¬ validate_coordinates row col then (false, s)
  else
    let roomId := coordinates_to_room row col
    let previousStatus := s.matrix (row, col)
    let s1 : BMState :=
      { s with matrix := Function.update s.matrix (row, col) false,
               activeRooms := s.activeRooms.erase roomId }
    if sendOk then
      (true, { s1 with packetSentCount := s1.packetSentCount + 1 })
    else
      (false, { s1 with matrix := Function.update s1.matrix (row, col) previousStatus,
                        activeRooms := s.activeRooms })

/-- Step 1 of set_active_rooms and turn_off_all_devices: the loop that writes
`DeviceStatus.OFF` into every cell of the 4×16 grid. -/
def clear_matrix (m : Nat × Nat → Bool) : Nat × Nat → Bool :=
  fun rc => if 1 ≤ rc.1 ∧ rc.1 ≤ 4 ∧ 1 ≤ rc.2 ∧ rc.2 ≤ 16 then false else m rc

/-- Step 2 of set_active_rooms: turn exactly the requested valid rooms ON,
skipping invalid room numbers with a warning. -/
def mark_rooms (s : BMState) (rooms : List Nat) : BMState :=
  rooms.foldl (fun acc roomId =>
    let rc := room_to_coordinates roomId
    if validate_coordinates rc.1 rc.2 then
      { acc with matrix := Function.update acc.matrix rc true,
                 activeRooms := insert roomId acc.activeRooms }
    else acc)
    { s with matrix := clear_matrix s.matrix, activeRooms := ∅ }

/-- BroadcastManager.set_active_rooms. Rollback restores the saved copies of
both the matrix and the active set, i.e. exactly the initial state. The
Python argument is a set; the list fixes one iteration order of it. -/
def set_active_rooms (s : BMState) (rooms : List Nat) (sendOk : Bool) : Bool × BMState :=
  let s1 := mark_rooms s rooms
  if sendOk then (true, { s1 with packetSentCount := s1.packetSentCount + 1 })
  else (false, s)

/-- Result of turn_off_all_devices: outcome, final state, number of send
attempts made, and number of `time.sleep(0.5)` backoff waits taken. -/
structure TurnOffAllResult where
  result : Bool
  state : BMState
  attempts : Nat
  sleeps : Nat

/-- BroadcastManager.turn_off_all_devices: clear the whole matrix and the
active set, then try `send_current_state_packet(set())` up to 3 times
(`for attempt in range(3)`), sleeping 0.5 s after a failed attempt while
`attempt < 2`; on the first success commit and return `True`; if all three
attempts fail, restore the saved copies of matrix and active set and return
`False`. `sendResults.getD i false` is the outcome of attempt `i` (an
exception inside an attempt is caught and retried just like a `False`). -/
def turn_off_all_devices (s : BMState) (sendResults : List Bool) : TurnOffAllResult :=
  let s1 : BMState := { s with matrix := clear_matrix s.matrix, activeRooms := ∅ }
  if sendResults.getD 0 false then
    { result := true, state := { s1 with packetSentCount := s1.packetSentCount + 1 },
      attempts := 1, sleeps := 0 }
  else if sendResults.getD 1 false then
    { result := true, state := { s1 with packetSentCount := s1.packetSentCount + 1 },
      attempts := 2, sleeps := 1 }
  else if sendResults.getD 2 false then
    { result := true, state := { s1 with packetSentCount := s1.packetSentCount + 1 },
      attempts := 3, sleeps := 2 }
  else
    { result := false, state := s, attempts := 3, sleeps := 2 }

end BSMBC.Manager

namespace BSMBC.Net

/-! ## NetworkManager (app/services/network.py)

Each send method opens one fresh TCP connection, writes and reads on it, and
closes it. Socket traffic is recorded as a trace of events; `connectOk` is the
oracle for whether the connection (and the writes on it) succeed. A `recv`
that times out still appears as one `recv` event (the source catches
`socket.timeout` and keeps going). -/

inductive NetEvent
  | send
  | recv
deriving DecidableEq, Repr

/-- NetworkManager.send_payload: `for i in range(2): sock.send(payload);
response = sock.recv(1024)` — two writes, each followed by a read, on one
connection. Returns success and the event trace. -/
def send_payload (connectOk : Bool) (_payload : List Nat) : Bool × List NetEvent :=
  if connectOk then (true, [NetEvent.send, NetEvent.recv, NetEvent.send, NetEvent.recv])
  else (false, [])

/-- NetworkManager.send_payload_single: one write, one read. -/
def send_payload_single (connectOk : Bool) (_payload : List Nat) : Bool × List NetEvent :=
  if connectOk then (true, [NetEvent.send, NetEvent.recv])
  else (false, [])

/-- NetworkManager.send_current_state_packet: builds the state payload with
`create_current_state_payload` (which never returns `None`, so the
payload-missing branch is dead) and transmits it via `send_payload_single`. -/
def send_current_state_packet (connectOk : Bool) (rooms : List Nat) : Bool × List NetEvent :=
  let payload := BSMBC.Builder.create_current_state_payload rooms
  send_payload_single connectOk payload

/-- Number of socket writes in a trace. -/
def sendCount (trace : List NetEvent) : Nat :=
  (trace.filter (fun e => e = NetEvent.send)).length

end BSMBC.Net

namespace BSMBC.Controller

/-! ## BroadcastController (app/services/broadcast_controller.py)

BroadcastJob duration estimation, the FIFO queue worker, and the
emergency-stop path. Job payloads (TTS synthesis, audio playback, device
activation during playback) are external collaborators; what is embedded is
the queue discipline the worker follows and the state transitions of
`stop_broadcast`. Probing a `.wav` file for its duration is file I/O; the
embedding keeps the `duration` parameter and the 30-second default. -/

inductive JobKind
  | audio
  | text
deriving DecidableEq, Repr

/-- BroadcastJob: `job_type`, `params['text']` for text jobs and
`params['duration']` for audio jobs (the fields the duration estimate reads). -/
structure BroadcastJob where
  kind : JobKind
  text : String := ""
  audioDuration : Option ℚ := none
deriving DecidableEq

/-- BroadcastJob._calculate_duration: audio jobs use the explicit duration
parameter, else the probed file length (external, not embedded) with 30 s as
the fallback; text jobs use `max(3, len(text) * 0.3)`. -/
def calculate_duration (j : BroadcastJob) : ℚ :=
  match j.kind with
  | JobKind.audio =>
    match j.audioDuration with
    | some d => d
    | none => 30
  | JobKind.text => max 3 ((j.text.length : ℚ) * (3 / 10))

/-- Controller state: the `queue.Queue` backing the worker, the
`broadcast_jobs` bookkeeping list, the `is_playing` flag, the shared
BroadcastManager, plus the observed list of jobs the worker has completed,
in completion order. -/
structure CtrlState where
  queue : List BroadcastJob
  jobs : List BroadcastJob
  isPlaying : Bool
  mgr : BSMBC.Manager.BMState
  completed : List BroadcastJob

/-- broadcast_audio / broadcast_text enqueue path: `broadcast_queue.put(job)`
then `broadcast_jobs.append(job)`. -/
def enqueue_job (s : CtrlState) (j : BroadcastJob) : CtrlState :=
  { s with queue := s.queue ++ [j], jobs := s.jobs ++ [j] }

/-- One iteration of _broadcast_worker: `queue.get()` returns the oldest
queued job (FIFO); after the broadcast the job is removed from
`broadcast_jobs`. With an empty queue the worker blocks, leaving the state
unchanged. The playback itself is an external collaborator. -/
def worker_step (s : CtrlState) : CtrlState :=
  match s.queue with
  | [] => s
  | j :: rest =>
    { s with queue := rest, jobs := s.jobs.erase j, completed := s.completed ++ [j] }

/-- BroadcastController.stop_broadcast: stop audio playback, drain the queue
(discarding every pending job), clear `broadcast_jobs`, then call
`broadcast_manager.turn_off_all_devices()`; if that first call fails, call it
once more as the last resort. Returns the source's `True` together with the
new state and the number of turn_off_all_devices invocations made.
`sr1`/`sr2` are the per-attempt transport oracles of the two possible
invocations. -/
def stop_broadcast (s : CtrlState) (sr1 sr2 : List Bool) : Bool × CtrlState × Nat :=
  let s1 : CtrlState := { s with isPlaying := false, queue := [], jobs := [] }
  let r := BSMBC.Manager.turn_off_all_devices s1.mgr sr1
  if r.result then (true, { s1 with mgr := r.state }, 1)
  else
    let r2 := BSMBC.Manager.turn_off_all_devices r.state sr2
    (true, { s1 with mgr := r2.state }, 2)

end BSMBC.Controller

namespace BSMBC

/-! ## Generic byte-list and XOR lemmas -/

/-- Flipping bit `k` of byte `i` of a packet. -/
def flipBit (p : List Nat) (i k : Nat) : List Nat :=
  p.set i (p.getD i 0 ^^^ (1 <<< k))

theorem foldl_xor_init (l : List Nat) (a : Nat) :
    l.foldl Nat.xor a = a ^^^ l.foldl Nat.xor 0 := by
  induction l generalizing a with
  | nil => simp
  | cons b t ih =>
    simp only [List.foldl_cons]
    rw [ih (Nat.xor a b), ih (Nat.xor 0 b)]
    rw [show Nat.xor a b = a ^^^ b from rfl, show Nat.xor 0 b = b from Nat.zero_xor b]
    exact Nat.xor_assoc a b _

theorem xorList_cons (a : Nat) (t : List Nat) :
    xorList (a :: t) = a ^^^ xorList t := by
  show List.foldl Nat.xor (Nat.xor 0 a) t = a ^^^ List.foldl Nat.xor 0 t
  rw [show Nat.xor 0 a = a from Nat.zero_xor a]
  exact foldl_xor_init t a

theorem xorList_set (l : List Nat) (i v : Nat) (h : i < l.length) :
    xorList (l.set i v) = xorList l ^^^ l.getD i 0 ^^^ v := by
  induction l generalizing i with
  | nil => simp at h
  | cons a t ih =>
    cases i with
    | zero =>
      simp only [List.set_cons_zero, List.getD_cons_zero, xorList_cons]
      simp only [Nat.xor_assoc, Nat.xor_comm, Nat.xor_self, Nat.xor_zero, Nat.zero_xor]
      rw [Nat.xor_cancel_left]
    | succ j =>
      simp only [List.set_cons_succ, List.getD_cons_succ, xorList_cons]
      rw [ih j (by simpa using h)]
      simp only [Nat.xor_assoc, Nat.xor_comm, Nat.xor_self, Nat.xor_zero, Nat.zero_xor]
      rw [← Nat.xor_assoc, Nat.xor_comm a v, Nat.xor_assoc]

theorem xorList_lt_256 (l : List Nat) (h : ∀ b ∈ l, b < 256) : xorList l < 256 := by
  induction l with
  | nil => simp [xorList]
  | cons a t ih =>
    rw [xorList_cons]
    have h256 : (256 : Nat) = 2 ^ 8 := by norm_num
    rw [h256]
    exact Nat.xor_lt_two_pow (by rw [← h256]; exact h a (by simp))
      (by rw [← h256]; exact ih (fun b hb => h b (List.mem_cons_of_mem a hb)))

theorem xor_ne_self (a m : Nat) (hm : m ≠ 0) : a ^^^ m ≠ a := by
  intro h
  apply hm
  have h2 : a ^^^ (a ^^^ m) = a ^^^ a := by rw [h]
  rwa [Nat.xor_cancel_left, Nat.xor_self] at h2

theorem one_shiftLeft_ne_zero (k : Nat) : 1 <<< k ≠ 0 := by
  rw [Nat.shiftLeft_eq, one_mul]
  exact (Nat.pos_pow_of_pos k (by norm_num)).ne'

theorem getD_lt_of_forall (p : List Nat) (h : ∀ b ∈ p, b < 256) (j : Nat)
    (hj : j < p.length) : p.getD j 0 < 256 := by
  rw [List.getD_eq_getElem?_getD, List.getElem?_eq_getElem hj]
  exact h _ (List.getElem_mem hj)

theorem getD_eq_of_take_eq (p q : List Nat) (n i : Nat) (hi : i < n)
    (h : p.take n = q.take n) : p.getD i 0 = q.getD i 0 := by
  rw [List.getD_eq_getElem?_getD, List.getD_eq_getElem?_getD]
  have hp : (p.take n)[i]? = p[i]? := by rw [List.getElem?_take]; simp [hi]
  have hq : (q.take n)[i]? = q[i]? := by rw [List.getElem?_take]; simp [hi]
  rw [← hp, ← hq, h]

theorem getD_set_same (p : List Nat) (i v : Nat) (hi : i < p.length) :
    (p.set i v).getD i 0 = v := by
  rw [List.getD_eq_getElem?_getD, List.getElem?_set_eq_of_lt v hi]
  rfl

theorem getD_set_other (p : List Nat) (i j v : Nat) (hij : i ≠ j) :
    (p.set i v).getD j 0 = p.getD j 0 := by
  rw [List.getD_eq_getElem?_getD, List.getD_eq_getElem?_getD, List.getElem?_set_ne hij]

theorem take_set_high (l : List Nat) (n i v : Nat) (h : n ≤ i) :
    (l.set i v).take n = l.take n := by
  rw [List.set_take]
  exact List.set_eq_of_length_le (le_trans (by simp) h)

/-- Checksum of bytes 0..42 after overwriting byte `i < 43`. -/
theorem calculate_checksum_set_low (p : List Nat) (i v : Nat) (hi : i < 43)
    (hlen : 43 ≤ p.length) :
    calculate_checksum (p.set i v) = calculate_checksum p ^^^ p.getD i 0 ^^^ v := by
  unfold calculate_checksum
  rw [List.set_take]
  rw [xorList_set _ i v (by simp; omega)]
  congr 1
  congr 1
  rw [List.getD_eq_getElem?_getD, List.getD_eq_getElem?_getD, List.getElem?_take]
  simp [hi]

/-- Checksum of bytes 0..42 is unchanged by overwriting byte `i ≥ 43`. -/
theorem calculate_checksum_set_high (p : List Nat) (i v : Nat) (hi : 43 ≤ i) :
    calculate_checksum (p.set i v) = calculate_checksum p := by
  unfold calculate_checksum
  rw [take_set_high p 43 i v hi]

/-! ## Structural lemmas about the builder -/

theorem length_setBit (p : List Nat) (b k : Nat) :
    (Builder.setBit p b k).length = p.length := by
  simp [Builder.setBit]

theorem length_apply_room (p : List Nat) (r : Nat) :
    (Builder.apply_room p r).length = p.length := by
  unfold Builder.apply_room
  repeat' split
  all_goals simp [apply_ite List.length, Builder.setBit]

theorem length_foldl_apply_room (rooms : List Nat) (p : List Nat) :
    (rooms.foldl Builder.apply_room p).length = p.length := by
  induction rooms generalizing p with
  | nil => rfl
  | cons r t ih => rw [List.foldl_cons, ih, length_apply_room]

theorem length_finalize (p : List Nat) :
    (Builder.finalize p).length = p.length := by
  simp [Builder.finalize]

theorem length_basePayload : Builder.basePayload.length = 46 := by decide

theorem length_create_current_state_payload (rooms : List Nat) :
    (Builder.create_current_state_payload rooms).length = 46 := by
  unfold Builder.create_current_state_payload
  split
  · decide
  · rw [length_finalize, length_foldl_apply_room, length_basePayload]

theorem take23_finalize (p : List Nat) :
    (Builder.finalize p).take 23 = p.take 23 := by
  simp only [Builder.finalize]
  rw [take_set_high _ 23 45 _ (by norm_num), take_set_high _ 23 44 _ (by norm_num),
    take_set_high _ 23 43 _ (by norm_num), take_set_high _ 23 42 _ (by norm_num)]

theorem getD43_finalize (p : List Nat) (h : p.length = 46) :
    (Builder.finalize p).getD 43 0 = Builder.calculate_checksum p := by
  simp only [Builder.finalize]
  rw [getD_set_other _ 45 43 _ (by norm_num), getD_set_other _ 44 43 _ (by norm_num)]
  rw [getD_set_same _ 43 _ (by simp [h])]

theorem builder_checksum_finalize (p : List Nat) :
    Builder.calculate_checksum (Builder.finalize p) = Builder.calculate_checksum p := by
  unfold Builder.calculate_checksum
  rw [take23_finalize]

/-! ## What passing each validator implies -/

theorem validate_packet_spec (p : List Nat) (h : validate_packet p = true) :
    p.length = 46 ∧ p.take 3 = HEADER ∧ calculate_checksum p = p.getD 43 0 ∧
    (p.drop 44).take 2 = FOOTER := by
  unfold validate_packet at h
  split_ifs at h with h1 h2 h3 h4
  exact ⟨not_ne_iff.mp h1, not_ne_iff.mp h2, not_ne_iff.mp h3, not_ne_iff.mp h4⟩

theorem validate_response_spec (p : List Nat) (h : validate_response_packet p = true) :
    44 ≤ p.length ∧ footer_ok p = true ∧
    ((p.take 3 = HEADER ∧ (p.drop 3).take 7 = COMMAND ∧
        calculate_checksum p = p.getD 43 0) ∨
     (p.take 3 = RESPONSE_HEADER ∧ (p.drop 3).take 7 = RESPONSE_COMMAND ∧
        (calculate_checksum p + 0x03) % 256 = p.getD 43 0)) := by
  unfold validate_response_packet at h
  split_ifs at h with h1 h2 h3 h4 h5 h6 h7
  · exact ⟨by omega, h, Or.inl ⟨h2, not_ne_iff.mp h3, not_ne_iff.mp h4⟩⟩
  · exact ⟨by omega, h, Or.inr ⟨h5, not_ne_iff.mp h6, not_ne_iff.mp h7⟩⟩

theorem footer_ok_44 (p : List Nat) (hlen : p.length = 44) (h : footer_ok p = true) :
    p.getD 43 0 = 0x03 := by
  unfold footer_ok at h
  rw [if_pos hlen] at h
  exact of_decide_eq_true h

theorem footer_ok_other (p : List Nat) (hlen : p.length ≠ 44) (h : footer_ok p = true) :
    (p.drop 44).take 2 = FOOTER := by
  unfold footer_ok at h
  rw [if_neg hlen] at h
  exact of_decide_eq_true h

theorem getD_of_drop_take_eq (p : List Nat) (a n j : Nat) (c : List Nat)
    (h : (p.drop a).take n = c) (hj : j < n) :
    p.getD (a + j) 0 = c.getD j 0 := by
  rw [← h, List.getD_eq_getElem?_getD, List.getD_eq_getElem?_getD, List.getElem?_take,
    if_pos hj, List.getElem?_drop]

theorem getD_eq_of_drop_take_eq (p q : List Nat) (a n i : Nat) (c : List Nat)
    (hp : (p.drop a).take n = c) (hq : (q.drop a).take n = c)
    (ha : a ≤ i) (hn : i < a + n) :
    p.getD i 0 = q.getD i 0 := by
  have hj : i - a < n := by omega
  have h1 := getD_of_drop_take_eq p a n (i - a) c hp hj
  have h2 := getD_of_drop_take_eq q a n (i - a) c hq hj
  have hai : a + (i - a) = i := by omega
  rw [hai] at h1 h2
  rw [h1, h2]

theorem checksum_flipBit_low (p : List Nat) (i k : Nat) (hi : i < 43)
    (hlen : 43 ≤ p.length) :
    calculate_checksum (flipBit p i k) = calculate_checksum p ^^^ 1 <<< k := by
  unfold flipBit
  rw [calculate_checksum_set_low p i _ hi hlen, Nat.xor_assoc, Nat.xor_cancel_left]

theorem checksum_flipBit_high (p : List Nat) (i k : Nat) (hi : 43 ≤ i) :
    calculate_checksum (flipBit p i k) = calculate_checksum p :=
  calculate_checksum_set_high p i _ hi

theorem flipBit_getD_same (p : List Nat) (i k : Nat) (hi : i < p.length) :
    (flipBit p i k).getD i 0 = p.getD i 0 ^^^ 1 <<< k :=
  getD_set_same p i _ hi

theorem flipBit_getD_other (p : List Nat) (i j k : Nat) (hij : i ≠ j) :
    (flipBit p i k).getD j 0 = p.getD j 0 :=
  getD_set_other p i j _ hij

theorem flipBit_length (p : List Nat) (i k : Nat) :
    (flipBit p i k).length = p.length :=
  List.length_set p i _

theorem bool_eq_true_of_ne_false (b : Bool) (h : ¬ b = false) : b = true := by
  cases b
  · exact absurd rfl h
  · rfl

theorem builder_byte43 (rooms : List Nat) :
    (Builder.create_current_state_payload rooms).getD 43 0 =
      Builder.calculate_checksum (Builder.create_current_state_payload rooms) := by
  unfold Builder.create_current_state_payload
  split
  · rw [getD43_finalize _ length_basePayload, builder_checksum_finalize]
  · rw [getD43_finalize _ (by rw [length_foldl_apply_room, length_basePayload]),
      builder_checksum_finalize]

end BSMBC

/-! ## Claim C1 — codec round trip -/

namespace BSMBC

/-- Shape of the state payload while the builder folds over grade-1 rooms:
only byte 10 (row-1 / columns-1..8 state byte) carries a value. -/
def payload10 (b : Nat) : List Nat :=
  [0x02, 0x2d, 0x00, 0x43, 0x42, 0x01, 0, 0, 0, 0, b] ++ List.replicate 35 0

/-- Accumulated byte-10 bit mask of a room list (one bit per room 101..104). -/
def orBits (L : List Nat) (b : Nat) : Nat :=
  L.foldl (fun acc r => acc ||| 1 <<< (r - 101)) b

theorem apply_room_payload10 (b r : Nat) (h1 : 101 ≤ r) (h2 : r ≤ 104) :
    Builder.apply_room (payload10 b) r = payload10 (b ||| 1 <<< (r - 101)) := by
  interval_cases r <;> rfl

theorem foldl_apply_payload10 (L : List Nat) (hL : ∀ r ∈ L, 101 ≤ r ∧ r ≤ 104) (b : Nat) :
    L.foldl Builder.apply_room (payload10 b) = payload10 (orBits L b) := by
  induction L generalizing b with
  | nil => rfl
  | cons r t ih =>
    have hr := hL r (by simp)
    rw [List.foldl_cons, apply_room_payload10 b r hr.1 hr.2,
      ih (fun x hx => hL x (by simp [hx]))]
    rfl

theorem create_eq_payload10 (L : List Nat) (hL : ∀ r ∈ L, 101 ≤ r ∧ r ≤ 104) :
    Builder.create_current_state_payload L = Builder.finalize (payload10 (orBits L 0)) := by
  unfold Builder.create_current_state_payload
  split
  · next h => rw [h]; rfl
  · rw [show Builder.basePayload = payload10 0 from rfl, foldl_apply_payload10 L hL 0]

theorem orBits_lt (L : List Nat) (hL : ∀ r ∈ L, 101 ≤ r ∧ r ≤ 104) (b : Nat)
    (hb : b < 16) : orBits L b < 16 := by
  induction L generalizing b with
  | nil => exact hb
  | cons r t ih =>
    have hr := hL r (by simp)
    refine ih (fun x hx => hL x (by simp [hx])) _ ?_
    have hshift : 1 <<< (r - 101) < 16 := by
      rw [Nat.shiftLeft_eq, one_mul, show (16 : Nat) = 2 ^ 4 from rfl]
      exact Nat.pow_lt_pow_right (by norm_num) (by omega)
    calc b ||| 1 <<< (r - 101) < 2 ^ 4 :=
          Nat.or_lt_two_pow (by simpa using hb) (by simpa using hshift)
      _ = 16 := rfl

theorem testBit_orBits (L : List Nat) (b k : Nat) :
    Nat.testBit (orBits L b) k =
      (Nat.testBit b k || L.any (fun r => decide (r - 101 = k))) := by
  induction L generalizing b with
  | nil => simp [orBits]
  | cons r t ih =>
    show Nat.testBit (orBits t (b ||| 1 <<< (r - 101))) k = _
    rw [ih, Nat.testBit_or]
    rw [show (1 <<< (r - 101) : Nat) = 2 ^ (r - 101) by rw [Nat.shiftLeft_eq, one_mul]]
    rw [Nat.testBit_two_pow]
    simp [Bool.or_assoc]

theorem parse_finalize_payload10 (b : Nat) (hb : b < 16) :
    parse_device_status_packet_to_rooms (Builder.finalize (payload10 b)) =
      ((List.range 4).filterMap
        (fun k => if Nat.testBit b k then some (101 + k) else none)).toFinset := by
  interval_cases b <;> decide

end BSMBC

/-- Claim C1 (counterexample): room 201 (row 2, col 1 — a valid RoomID) is
encoded by `create_current_state_payload` into row-1 byte 11 bit 0 via the
grade/class branch, which the parser reads back as room 109, so the round
trip returns a different set. -/
theorem C1_roundtrip_counterexample :
    BSMBC.parse_device_status_packet_to_rooms
      (BSMBC.Builder.create_current_state_payload [201]) = {109} ∧
    BSMBC.parse_device_status_packet_to_rooms
      (BSMBC.Builder.create_current_state_payload [201]) ≠ {201} := by
  decide

/-- Claim C1 (amended): the round trip
`parse_device_status_packet_to_rooms (create_current_state_payload S) = S`
holds for every set S of grade-1 rooms 101..104 — the only RoomIDs whose
encoder byte/bit position the parser maps back to the same RoomID. -/
theorem C1_roundtrip_amended (L : List Nat) (hL : ∀ r ∈ L, 101 ≤ r ∧ r ≤ 104) :
    BSMBC.parse_device_status_packet_to_rooms
      (BSMBC.Builder.create_current_state_payload L) = L.toFinset := by
  rw [BSMBC.create_eq_payload10 L hL,
    BSMBC.parse_finalize_payload10 _ (BSMBC.orBits_lt L hL 0 (by norm_num))]
  ext r
  simp only [List.mem_toFinset, List.mem_filterMap, List.mem_range]
  constructor
  · rintro ⟨k, hk, hcond⟩
    by_cases ht : Nat.testBit (BSMBC.orBits L 0) k = true
    · rw [if_pos ht] at hcond
      have hrk : 101 + k = r := by simpa using hcond
      rw [BSMBC.testBit_orBits, Nat.zero_testBit, Bool.false_or, List.any_eq_true] at ht
      obtain ⟨x, hx, hxk⟩ := ht
      have hxb := hL x hx
      have : x = r := by
        have := of_decide_eq_true hxk
        omega
      rwa [← this]
    · rw [if_neg ht] at hcond
      exact absurd hcond (by simp)
  · intro hr
    have hx := hL r hr
    refine ⟨r - 101, by omega, ?_⟩
    have ht : Nat.testBit (BSMBC.orBits L 0) (r - 101) = true := by
      rw [BSMBC.testBit_orBits, Nat.zero_testBit, Bool.false_or, List.any_eq_true]
      exact ⟨r, hr, by simp⟩
    rw [if_pos ht]
    have : 101 + (r - 101) = r := by omega
    rw [this]

/-- Witness for the amended C1 at the concrete set (101, 103). -/
theorem C1_roundtrip_amended_witness :
    BSMBC.parse_device_status_packet_to_rooms
      (BSMBC.Builder.create_current_state_payload [101, 103]) =
      ([101, 103] : List Nat).toFinset :=
  C1_roundtrip_amended [101, 103] (by decide)

/-! ## Claim C2 — rollback atomicity of DeviceStateStore mutations -/

/-- Claim C2 (code bug, failing input): starting from the fresh store, a
successful `turn_on_device(1, 1)` leaves cell (1,1) ON; a second
`turn_on_device(1, 1)` whose transport send fails returns `false` but leaves
cell (1,1) OFF — the rollback writes the constant `DeviceStatus.OFF` instead
of the saved prior value, so the matrix after the failed call differs from
the matrix before it (the active-room set is restored correctly). -/
theorem C2_rollback_code_bug :
    (BSMBC.Manager.turn_on_device BSMBC.Manager.initialState 1 1 true).1 = true ∧
    (BSMBC.Manager.turn_on_device BSMBC.Manager.initialState 1 1 true).2.matrix (1, 1) = true ∧
    (BSMBC.Manager.turn_on_device
      (BSMBC.Manager.turn_on_device BSMBC.Manager.initialState 1 1 true).2 1 1 false).1 = false ∧
    (BSMBC.Manager.turn_on_device
      (BSMBC.Manager.turn_on_device BSMBC.Manager.initialState 1 1 true).2 1 1 false).2.matrix
        (1, 1) = false := by
  decide

/-! ## Claim C5 — matrix / active-set consistency invariant -/

/-- Claim C5 (code bug, failing input): after `turn_on_device(1, 1)` succeeds
and a second `turn_on_device(1, 1)` fails on the wire, room 101 is still a
member of `active_rooms` while `device_matrix[(1, 1)]` is OFF, so the
"member iff ON" invariant does not survive every operation sequence. -/
theorem C5_consistency_code_bug :
    101 ∈ (BSMBC.Manager.turn_on_device
      (BSMBC.Manager.turn_on_device BSMBC.Manager.initialState 1 1 true).2 1 1 false).2.activeRooms ∧
    (BSMBC.Manager.turn_on_device
      (BSMBC.Manager.turn_on_device BSMBC.Manager.initialState 1 1 true).2 1 1 false).2.matrix
        (1, 1) = false ∧
    ¬ (101 ∈ (BSMBC.Manager.turn_on_device
        (BSMBC.Manager.turn_on_device BSMBC.Manager.initialState 1 1 true).2 1 1 false).2.activeRooms ↔
      (BSMBC.Manager.turn_on_device
        (BSMBC.Manager.turn_on_device BSMBC.Manager.initialState 1 1 true).2 1 1 false).2.matrix
          (1, 1) = true) := by
  decide

/-! ## Claim C4 — bounded retry of turn_off_all_devices -/

/-- Claim C4 (confirmed): `turn_off_all_devices` makes at most 3 send attempts
with a 0.5 s wait after each failed attempt but the last; if the transport
fails twice and succeeds on the 3rd attempt it returns `true` with an empty
active-room set after 3 attempts and 2 waits; if all 3 attempts fail it
returns `false` and the state is exactly the pre-call state. -/
theorem C4_turn_off_all_retry (s : BSMBC.Manager.BMState) (sendResults : List Bool) :
    (BSMBC.Manager.turn_off_all_devices s sendResults).attempts ≤ 3 ∧
    (sendResults.getD 0 false = false → sendResults.getD 1 false = false →
      sendResults.getD 2 false = true →
      (BSMBC.Manager.turn_off_all_devices s sendResults).result = true ∧
      (BSMBC.Manager.turn_off_all_devices s sendResults).state.activeRooms = ∅ ∧
      (BSMBC.Manager.turn_off_all_devices s sendResults).attempts = 3 ∧
      (BSMBC.Manager.turn_off_all_devices s sendResults).sleeps = 2) ∧
    (sendResults.getD 0 false = false → sendResults.getD 1 false = false →
      sendResults.getD 2 false = false →
      (BSMBC.Manager.turn_off_all_devices s sendResults).result = false ∧
      (BSMBC.Manager.turn_off_all_devices s sendResults).state = s) := by
  unfold BSMBC.Manager.turn_off_all_devices
  cases h0 : sendResults.getD 0 false <;> cases h1 : sendResults.getD 1 false <;>
    cases h2 : sendResults.getD 2 false <;> simp [h0, h1, h2]

/-- Witness for C4 at the concrete fail-fail-succeed transport. -/
theorem C4_turn_off_all_retry_witness :
    (BSMBC.Manager.turn_off_all_devices BSMBC.Manager.initialState [false, false, true]).result
        = true ∧
    (BSMBC.Manager.turn_off_all_devices BSMBC.Manager.initialState
        [false, false, true]).state.activeRooms = ∅ ∧
    (BSMBC.Manager.turn_off_all_devices BSMBC.Manager.initialState
        [false, false, true]).attempts = 3 ∧
    (BSMBC.Manager.turn_off_all_devices BSMBC.Manager.initialState
        [false, false, true]).sleeps = 2 :=
  (C4_turn_off_all_retry BSMBC.Manager.initialState [false, false, true]).2.1 rfl rfl rfl

/-! ## Claim C6 — double send on the state-packet path -/

/-- Claim C6 (counterexample): `send_current_state_packet` transmits through
`send_payload_single`, so its socket trace on a successful connection is one
write then one read — not two writes before the read. -/
theorem C6_double_send_counterexample :
    BSMBC.Net.send_current_state_packet true [101] =
      (true, [BSMBC.Net.NetEvent.send, BSMBC.Net.NetEvent.recv]) ∧
    BSMBC.Net.sendCount (BSMBC.Net.send_current_state_packet true [101]).2 = 1 := by
  decide

/-- Claim C6 (amended): on a successful connection the state-packet path
writes the frame exactly once and then reads; the double-write helper
`send_payload` (used by `initialize_connection`, not by the state-packet
path) writes twice but interleaves a read after each write. -/
theorem C6_state_packet_amended (connectOk : Bool) (rooms payload : List Nat)
    (h : connectOk = true) :
    (BSMBC.Net.send_current_state_packet connectOk rooms).2 =
      [BSMBC.Net.NetEvent.send, BSMBC.Net.NetEvent.recv] ∧
    (BSMBC.Net.send_payload connectOk payload).2 =
      [BSMBC.Net.NetEvent.send, BSMBC.Net.NetEvent.recv,
        BSMBC.Net.NetEvent.send, BSMBC.Net.NetEvent.recv] := by
  subst h
  exact ⟨rfl, rfl⟩

/-- Witness for the amended C6 at a concrete room set and payload. -/
theorem C6_state_packet_amended_witness :
    (BSMBC.Net.send_current_state_packet true [101]).2 =
      [BSMBC.Net.NetEvent.send, BSMBC.Net.NetEvent.recv] ∧
    (BSMBC.Net.send_payload true [0x02]).2 =
      [BSMBC.Net.NetEvent.send, BSMBC.Net.NetEvent.recv,
        BSMBC.Net.NetEvent.send, BSMBC.Net.NetEvent.recv] :=
  C6_state_packet_amended true [101] [0x02] rfl

/-! ## Claim C8 — queue ordering and emergency stop -/

namespace BSMBC.Controller

theorem worker_completed_iterate (s : CtrlState) (n : Nat) :
    (worker_step^[n] s).completed = s.completed ++ s.queue.take n := by
  induction n generalizing s with
  | zero => simp
  | succ n ih =>
    rw [Function.iterate_succ_apply]
    cases hq : s.queue with
    | nil =>
      have hstep : worker_step s = s := by simp [worker_step, hq]
      rw [hstep, ih, hq]
      simp
    | cons j rest =>
      have hstep : worker_step s =
          { s with queue := rest, jobs := s.jobs.erase j, completed := s.completed ++ [j] } := by
        simp [worker_step, hq]
      rw [hstep, ih]
      simp [hq]

theorem turn_off_all_succeeds (m : BSMBC.Manager.BMState) (sr : List Bool)
    (hok : sr.getD 0 false = true ∨ sr.getD 1 false = true ∨ sr.getD 2 false = true) :
    (BSMBC.Manager.turn_off_all_devices m sr).result = true ∧
    (BSMBC.Manager.turn_off_all_devices m sr).state.activeRooms = ∅ := by
  unfold BSMBC.Manager.turn_off_all_devices
  cases h0 : sr.getD 0 false <;> cases h1 : sr.getD 1 false <;>
    cases h2 : sr.getD 2 false <;> simp_all

end BSMBC.Controller

/-- Claim C8 (confirmed): jobs are enqueued at the back and the single worker
completes exactly the front `n` queued jobs in queue (enqueue) order; `Stop`
discards every pending job, clears the job list, stops playback,
unconditionally invokes the all-off operation at least once, and — when the
all-off transport reaches the device on one of its attempts — leaves the
active-room set empty. -/
theorem C8_queue_order_and_stop (s : BSMBC.Controller.CtrlState)
    (j : BSMBC.Controller.BroadcastJob) (n : Nat) (sr1 sr2 : List Bool)
    (hc : s.completed = [])
    (hok : sr1.getD 0 false = true ∨ sr1.getD 1 false = true ∨ sr1.getD 2 false = true) :
    (BSMBC.Controller.worker_step^[n] s).completed = s.queue.take n ∧
    (BSMBC.Controller.enqueue_job s j).queue = s.queue ++ [j] ∧
    (BSMBC.Controller.stop_broadcast s sr1 sr2).2.1.queue = [] ∧
    (BSMBC.Controller.stop_broadcast s sr1 sr2).2.1.jobs = [] ∧
    (BSMBC.Controller.stop_broadcast s sr1 sr2).2.1.isPlaying = false ∧
    1 ≤ (BSMBC.Controller.stop_broadcast s sr1 sr2).2.2 ∧
    (BSMBC.Controller.stop_broadcast s sr1 sr2).2.1.mgr.activeRooms = ∅ := by
  have hta := BSMBC.Controller.turn_off_all_succeeds s.mgr sr1 hok
  refine ⟨?_, rfl, ?_, ?_, ?_, ?_, ?_⟩
  · rw [BSMBC.Controller.worker_completed_iterate, hc]
    simp
  all_goals
    unfold BSMBC.Controller.stop_broadcast
    simp only [hta.1, if_true, hta.2]
  all_goals simp [hta.2]

/-- Witness for C8: three queued text jobs, two worker steps, a transport
whose first all-off attempt succeeds. -/
theorem C8_queue_order_and_stop_witness :
    (BSMBC.Controller.worker_step^[2]
      (⟨[⟨BSMBC.Controller.JobKind.text, "a", none⟩, ⟨BSMBC.Controller.JobKind.text, "b", none⟩,
          ⟨BSMBC.Controller.JobKind.text, "c", none⟩],
        [⟨BSMBC.Controller.JobKind.text, "a", none⟩, ⟨BSMBC.Controller.JobKind.text, "b", none⟩,
          ⟨BSMBC.Controller.JobKind.text, "c", none⟩],
        true, BSMBC.Manager.initialState, []⟩ : BSMBC.Controller.CtrlState)).completed =
      ([⟨BSMBC.Controller.JobKind.text, "a", none⟩, ⟨BSMBC.Controller.JobKind.text, "b", none⟩,
          ⟨BSMBC.Controller.JobKind.text, "c", none⟩] :
        List BSMBC.Controller.BroadcastJob).take 2 ∧
    (BSMBC.Controller.enqueue_job
      (⟨[⟨BSMBC.Controller.JobKind.text, "a", none⟩, ⟨BSMBC.Controller.JobKind.text, "b", none⟩,
          ⟨BSMBC.Controller.JobKind.text, "c", none⟩],
        [⟨BSMBC.Controller.JobKind.text, "a", none⟩, ⟨BSMBC.Controller.JobKind.text, "b", none⟩,
          ⟨BSMBC.Controller.JobKind.text, "c", none⟩],
        true, BSMBC.Manager.initialState, []⟩ : BSMBC.Controller.CtrlState)
      ⟨BSMBC.Controller.JobKind.text, "d", none⟩).queue =
      [⟨BSMBC.Controller.JobKind.text, "a", none⟩, ⟨BSMBC.Controller.JobKind.text, "b", none⟩,
        ⟨BSMBC.Controller.JobKind.text, "c", none⟩] ++
        [⟨BSMBC.Controller.JobKind.text, "d", none⟩] ∧
    (BSMBC.Controller.stop_broadcast
      (⟨[⟨BSMBC.Controller.JobKind.text, "a", none⟩, ⟨BSMBC.Controller.JobKind.text, "b", none⟩,
          ⟨BSMBC.Controller.JobKind.text, "c", none⟩],
        [⟨BSMBC.Controller.JobKind.text, "a", none⟩, ⟨BSMBC.Controller.JobKind.text, "b", none⟩,
          ⟨BSMBC.Controller.JobKind.text, "c", none⟩],
        true, BSMBC.Manager.initialState, []⟩ : BSMBC.Controller.CtrlState)
      [true] []).2.1.queue = [] ∧
    (BSMBC.Controller.stop_broadcast
      (⟨[⟨BSMBC.Controller.JobKind.text, "a", none⟩, ⟨BSMBC.Controller.JobKind.text, "b", none⟩,
          ⟨BSMBC.Controller.JobKind.text, "c", none⟩],
        [⟨BSMBC.Controller.JobKind.text, "a", none⟩, ⟨BSMBC.Controller.JobKind.text, "b", none⟩,
          ⟨BSMBC.Controller.JobKind.text, "c", none⟩],
        true, BSMBC.Manager.initialState, []⟩ : BSMBC.Controller.CtrlState)
      [true] []).2.1.jobs = [] ∧
    (BSMBC.Controller.stop_broadcast
      (⟨[⟨BSMBC.Controller.JobKind.text, "a", none⟩, ⟨BSMBC.Controller.JobKind.text, "b", none⟩,
          ⟨BSMBC.Controller.JobKind.text, "c", none⟩],
        [⟨BSMBC.Controller.JobKind.text, "a", none⟩, ⟨BSMBC.Controller.JobKind.text, "b", none⟩,
          ⟨BSMBC.Controller.JobKind.text, "c", none⟩],
        true, BSMBC.Manager.initialState, []⟩ : BSMBC.Controller.CtrlState)
      [true] []).2.1.isPlaying = false ∧
    1 ≤ (BSMBC.Controller.stop_broadcast
      (⟨[⟨BSMBC.Controller.JobKind.text, "a", none⟩, ⟨BSMBC.Controller.JobKind.text, "b", none⟩,
          ⟨BSMBC.Controller.JobKind.text, "c", none⟩],
        [⟨BSMBC.Controller.JobKind.text, "a", none⟩, ⟨BSMBC.Controller.JobKind.text, "b", none⟩,
          ⟨BSMBC.Controller.JobKind.text, "c", none⟩],
        true, BSMBC.Manager.initialState, []⟩ : BSMBC.Controller.CtrlState)
      [true] []).2.2 ∧
    (BSMBC.Controller.stop_broadcast
      (⟨[⟨BSMBC.Controller.JobKind.text, "a", none⟩, ⟨BSMBC.Controller.JobKind.text, "b", none⟩,
          ⟨BSMBC.Controller.JobKind.text, "c", none⟩],
        [⟨BSMBC.Controller.JobKind.text, "a", none⟩, ⟨BSMBC.Controller.JobKind.text, "b", none⟩,
          ⟨BSMBC.Controller.JobKind.text, "c", none⟩],
        true, BSMBC.Manager.initialState, []⟩ : BSMBC.Controller.CtrlState)
      [true] []).2.1.mgr.activeRooms = ∅ :=
  C8_queue_order_and_stop _ ⟨BSMBC.Controller.JobKind.text, "d", none⟩ 2 [true] [] rfl
    (Or.inl rfl)

/-! ## Claim C9 — text duration estimate -/

/-- Claim C9 (confirmed): a text job's estimated duration is
`max(3, len(text) * 0.3)` seconds, the estimate is monotone in the text
length, and the empty text estimates exactly 3 seconds. -/
theorem C9_text_duration (t t1 t2 : String) (h : t1.length < t2.length) :
    BSMBC.Controller.calculate_duration
        ⟨BSMBC.Controller.JobKind.text, t, none⟩ = max 3 ((t.length : ℚ) * (3 / 10)) ∧
    BSMBC.Controller.calculate_duration ⟨BSMBC.Controller.JobKind.text, t1, none⟩ ≤
      BSMBC.Controller.calculate_duration ⟨BSMBC.Controller.JobKind.text, t2, none⟩ ∧
    BSMBC.Controller.calculate_duration ⟨BSMBC.Controller.JobKind.text, "", none⟩ = 3 := by
  refine ⟨rfl, ?_, ?_⟩
  · unfold BSMBC.Controller.calculate_duration
    apply max_le_max le_rfl
    apply mul_le_mul_of_nonneg_right _ (by norm_num)
    exact_mod_cast h.le
  · unfold BSMBC.Controller.calculate_duration
    rw [show ("" : String).length = 0 from rfl]
    norm_num

/-- Witness for C9 at concrete texts. -/
theorem C9_text_duration_witness :
    BSMBC.Controller.calculate_duration
        ⟨BSMBC.Controller.JobKind.text, "hello", none⟩ =
      max 3 ((("hello" : String).length : ℚ) * (3 / 10)) ∧
    BSMBC.Controller.calculate_duration ⟨BSMBC.Controller.JobKind.text, "", none⟩ ≤
      BSMBC.Controller.calculate_duration ⟨BSMBC.Controller.JobKind.text, "ab", none⟩ ∧
    BSMBC.Controller.calculate_duration ⟨BSMBC.Controller.JobKind.text, "", none⟩ = 3 :=
  C9_text_duration "hello" "" "ab" (by decide)

/-! ## Claim C7 — checksum sensitivity to single-bit flips -/

/-- Claim C7 (counterexample): `_validate_response_packet` accepts frames
longer than 46 bytes and never inspects the bytes past index 45, so a valid
47-byte response frame stays valid after flipping bit 0 of byte 46 — a
single-bit flip that does not cause validation to fail. -/
theorem C7_bitflip_counterexample :
    BSMBC.validate_response_packet
      ([0x02, 0x2c, 0x00, 0x53, 0x42, 0, 0, 0, 0, 0, 0x3f] ++
        List.replicate 32 0 ++ [0x03, 0x03, 0x00, 0x00]) = true ∧
    46 < ([0x02, 0x2c, 0x00, 0x53, 0x42, 0, 0, 0, 0, 0, 0x3f] ++
        List.replicate 32 0 ++ [0x03, 0x03, 0x00, 0x00]).length ∧
    BSMBC.validate_response_packet
      (BSMBC.flipBit
        ([0x02, 0x2c, 0x00, 0x53, 0x42, 0, 0, 0, 0, 0, 0x3f] ++
          List.replicate 32 0 ++ [0x03, 0x03, 0x00, 0x00]) 46 0) = true := by
  decide

/-- Claim C7 (amended): for frames of the two defined sizes the sensitivity
does hold — flipping any single bit of a frame accepted by `validate_packet`
(whose frames are exactly 46 bytes), or of a frame of at most 46 bytes
accepted by `_validate_response_packet`, yields a frame that fails the same
validation; only response frames longer than 46 bytes carry unchecked
trailing bytes. -/
theorem C7_bitflip_amended (p : List Nat) (i k : Nat)
    (hbytes : ∀ b ∈ p, b < 256) (hi : i < p.length) (hk : k < 8) :
    (BSMBC.validate_packet p = true →
      BSMBC.validate_packet (BSMBC.flipBit p i k) = false) ∧
    (p.length ≤ 46 → BSMBC.validate_response_packet p = true →
      BSMBC.validate_response_packet (BSMBC.flipBit p i k) = false) := by
  have hm : (1 <<< k : Nat) ≠ 0 := BSMBC.one_shiftLeft_ne_zero k
  have hdiff : (BSMBC.flipBit p i k).getD i 0 ≠ p.getD i 0 := by
    rw [BSMBC.flipBit_getD_same p i k hi]
    exact BSMBC.xor_ne_self _ _ hm
  have hqlen : (BSMBC.flipBit p i k).length = p.length := BSMBC.flipBit_length p i k
  constructor
  · intro hp
    by_contra hqne
    have hq := BSMBC.bool_eq_true_of_ne_false _ hqne
    obtain ⟨hplen, hph, hpchk, hpf⟩ := BSMBC.validate_packet_spec p hp
    obtain ⟨_, hqh, hqchk, hqf⟩ := BSMBC.validate_packet_spec _ hq
    by_cases hi3 : i < 3
    · exact hdiff (BSMBC.getD_eq_of_take_eq _ p 3 i hi3 (hqh.trans hph.symm))
    · by_cases hi43 : i < 43
      · have hflip := BSMBC.checksum_flipBit_low p i k hi43 (by omega)
        have h43 : (BSMBC.flipBit p i k).getD 43 0 = p.getD 43 0 :=
          BSMBC.flipBit_getD_other p i 43 k (by omega)
        have hcontra : BSMBC.calculate_checksum p ^^^ 1 <<< k =
            BSMBC.calculate_checksum p := by
          rw [← hflip, hqchk, h43, ← hpchk]
        exact BSMBC.xor_ne_self _ _ hm hcontra
      · by_cases hi44 : i < 44
        · have hieq : i = 43 := by omega
          subst hieq
          have hflip := BSMBC.checksum_flipBit_high p 43 k (le_refl 43)
          have hq43 := BSMBC.flipBit_getD_same p 43 k hi
          have hcontra : p.getD 43 0 ^^^ 1 <<< k = p.getD 43 0 := by
            rw [← hq43, ← hqchk, hflip, hpchk]
          exact BSMBC.xor_ne_self _ _ hm hcontra
        · exact hdiff (BSMBC.getD_eq_of_drop_take_eq _ p 44 2 i BSMBC.FOOTER hqf hpf
            (by omega) (by omega))
  · intro hle hp
    by_contra hqne
    have hq := BSMBC.bool_eq_true_of_ne_false _ hqne
    obtain ⟨hplen44, hpfoot, hpd⟩ := BSMBC.validate_response_spec p hp
    obtain ⟨_, hqfoot, hqd⟩ := BSMBC.validate_response_spec _ hq
    have h45 : p.length ≠ 45 := by
      intro h45
      have hf := BSMBC.footer_ok_other p (by omega) hpfoot
      have hlen2 : ((p.drop 44).take 2).length = 1 := by
        simp [List.length_take, List.length_drop, h45]
      rw [hf] at hlen2
      exact absurd hlen2 (by decide)
    by_cases hi3 : i < 3
    · have hne : (BSMBC.flipBit p i k).take 3 ≠ p.take 3 := by
        intro heq
        exact hdiff (BSMBC.getD_eq_of_take_eq _ p 3 i hi3 heq)
      have hdropq : (BSMBC.flipBit p i k).drop 3 = p.drop 3 := by
        unfold BSMBC.flipBit
        rw [List.drop_set, if_pos hi3]
      rcases hpd with ⟨hpH, hpC, _⟩ | ⟨hpR, hpC, _⟩ <;>
        rcases hqd with ⟨hqH, hqC, _⟩ | ⟨hqR, hqC, _⟩
      · exact hne (hqH.trans hpH.symm)
      · rw [hdropq, hpC] at hqC
        exact absurd hqC (by decide)
      · rw [hdropq, hpC] at hqC
        exact absurd hqC (by decide)
      · exact hne (hqR.trans hpR.symm)
    · have hq3 : (BSMBC.flipBit p i k).take 3 = p.take 3 := by
        unfold BSMBC.flipBit
        exact BSMBC.take_set_high p 3 i _ (by omega)
      by_cases hi43 : i < 43
      · have hflip := BSMBC.checksum_flipBit_low p i k hi43 (by omega)
        have h43 : (BSMBC.flipBit p i k).getD 43 0 = p.getD 43 0 :=
          BSMBC.flipBit_getD_other p i 43 k (by omega)
        rcases hpd with ⟨hpH, _, hpchk⟩ | ⟨hpR, _, hpchk⟩ <;>
          rcases hqd with ⟨hqH, _, hqchk⟩ | ⟨hqR, _, hqchk⟩
        · have hcontra : BSMBC.calculate_checksum p ^^^ 1 <<< k =
              BSMBC.calculate_checksum p := by
            rw [← hflip, hqchk, h43, ← hpchk]
          exact BSMBC.xor_ne_self _ _ hm hcontra
        · rw [hq3, hpH] at hqR
          exact absurd hqR (by decide)
        · rw [hq3, hpR] at hqH
          exact absurd hqH (by decide)
        · have hlt : BSMBC.calculate_checksum p < 256 :=
            BSMBC.xorList_lt_256 _ (fun b hb => hbytes b (List.mem_of_mem_take hb))
          have hlt2 : BSMBC.calculate_checksum p ^^^ 1 <<< k < 256 := by
            rw [show (256 : Nat) = 2 ^ 8 from rfl] at hlt ⊢
            refine Nat.xor_lt_two_pow hlt ?_
            rw [Nat.shiftLeft_eq, one_mul]
            exact Nat.pow_lt_pow_right (by norm_num) hk
          have heq : ((BSMBC.calculate_checksum p ^^^ 1 <<< k) + 0x03) % 256 =
              (BSMBC.calculate_checksum p + 0x03) % 256 := by
            calc ((BSMBC.calculate_checksum p ^^^ 1 <<< k) + 0x03) % 256
                = (BSMBC.calculate_checksum (BSMBC.flipBit p i k) + 0x03) % 256 := by
                  rw [hflip]
              _ = (BSMBC.flipBit p i k).getD 43 0 := hqchk
              _ = p.getD 43 0 := h43
              _ = (BSMBC.calculate_checksum p + 0x03) % 256 := hpchk.symm
          have hcontra : BSMBC.calculate_checksum p ^^^ 1 <<< k =
              BSMBC.calculate_checksum p := by omega
          exact BSMBC.xor_ne_self _ _ hm hcontra
      · by_cases hi44 : i < 44
        · have hieq : i = 43 := by omega
          subst hieq
          have hflip := BSMBC.checksum_flipBit_high p 43 k (le_refl 43)
          have hq43 := BSMBC.flipBit_getD_same p 43 k hi
          rcases hpd with ⟨hpH, _, hpchk⟩ | ⟨hpR, _, hpchk⟩ <;>
            rcases hqd with ⟨hqH, _, hqchk⟩ | ⟨hqR, _, hqchk⟩
          · have hcontra : p.getD 43 0 ^^^ 1 <<< k = p.getD 43 0 := by
              rw [← hq43, ← hqchk, hflip, hpchk]
            exact BSMBC.xor_ne_self _ _ hm hcontra
          · rw [hq3, hpH] at hqR
            exact absurd hqR (by decide)
          · rw [hq3, hpR] at hqH
            exact absurd hqH (by decide)
          · have hcontra : p.getD 43 0 ^^^ 1 <<< k = p.getD 43 0 := by
              rw [← hq43, ← hqchk, hflip, hpchk]
            exact BSMBC.xor_ne_self _ _ hm hcontra
        · have hlen46 : p.length = 46 := by omega
          have hpf := BSMBC.footer_ok_other p (by omega) hpfoot
          have hqf := BSMBC.footer_ok_other _ (by rw [hqlen]; omega) hqfoot
          exact hdiff (BSMBC.getD_eq_of_drop_take_eq _ p 44 2 i BSMBC.FOOTER hqf hpf
            (by omega) (by omega))

/-- Witness for the amended C7: flipping bit 0 of state byte 10 of the valid
encoder frame for room 101 makes both validators reject it. -/
theorem C7_bitflip_amended_witness :
    BSMBC.validate_packet
      (BSMBC.flipBit (BSMBC.Builder.create_current_state_payload [101]) 10 0) = false ∧
    BSMBC.validate_response_packet
      (BSMBC.flipBit (BSMBC.Builder.create_current_state_payload [101]) 10 0) = false :=
  ⟨(C7_bitflip_amended (BSMBC.Builder.create_current_state_payload [101]) 10 0
      (by decide) (by decide) (by decide)).1 (by decide),
    (C7_bitflip_amended (BSMBC.Builder.create_current_state_payload [101]) 10 0
      (by decide) (by decide) (by decide)).2 (by decide) (by decide)⟩

/-! ## Claim C10 — acceptance condition for exactly-44-byte responses -/

/-- Claim C10 (confirmed): a 44-byte packet is accepted only if byte 43 is
0x03 (the footer check reuses the checksum byte position); together with the
response checksum rule this forces the XOR of bytes 0 through 42 of an
accepted response-framed 44-byte packet to be 0; and any 44-byte
response-framed packet violating either condition is rejected and parses to
the empty device list. -/
theorem C10_response_44_acceptance (p : List Nat) (hlen : p.length = 44)
    (hbytes : ∀ b ∈ p, b < 256) :
    (BSMBC.validate_response_packet p = true → p.getD 43 0 = 0x03) ∧
    (p.take 3 = BSMBC.RESPONSE_HEADER → BSMBC.validate_response_packet p = true →
      BSMBC.calculate_checksum p = 0) ∧
    (BSMBC.validate_response_packet p = false → BSMBC.parse_device_status_packet p = []) ∧
    (p.take 3 = BSMBC.RESPONSE_HEADER →
      ¬ (p.getD 43 0 = 0x03 ∧
          (BSMBC.calculate_checksum p + 0x03) % 256 = p.getD 43 0) →
      BSMBC.validate_response_packet p = false ∧
      BSMBC.parse_device_status_packet p = []) := by
  have foot : BSMBC.validate_response_packet p = true → p.getD 43 0 = 0x03 := fun h =>
    BSMBC.footer_ok_44 p hlen (BSMBC.validate_response_spec p h).2.1
  have chkrule : p.take 3 = BSMBC.RESPONSE_HEADER →
      BSMBC.validate_response_packet p = true →
      (BSMBC.calculate_checksum p + 0x03) % 256 = p.getD 43 0 := by
    intro hresp h
    rcases (BSMBC.validate_response_spec p h).2.2 with hreq | hr
    · exact absurd (hreq.1.symm.trans hresp) (by decide)
    · exact hr.2.2
  have rejected : BSMBC.validate_response_packet p = false →
      BSMBC.parse_device_status_packet p = [] := by
    intro h
    unfold BSMBC.parse_device_status_packet
    rw [if_neg (by omega), if_pos (by simp [h])]
  refine ⟨foot, ?_, rejected, ?_⟩
  · intro hresp h
    have h3 := foot h
    have hrule := chkrule hresp h
    have hlt : BSMBC.calculate_checksum p < 256 :=
      BSMBC.xorList_lt_256 (p.take 43) (fun b hb => hbytes b (List.mem_of_mem_take hb))
    rw [h3] at hrule
    omega
  · intro hresp hviol
    by_cases hv : BSMBC.validate_response_packet p = true
    · exact absurd ⟨foot hv, chkrule hresp hv⟩ hviol
    · have hv' : BSMBC.validate_response_packet p = false := by
        cases hb : BSMBC.validate_response_packet p
        · rfl
        · exact absurd hb hv
      exact ⟨hv', rejected hv'⟩

/-- Witness for C10 at the concrete valid 44-byte response frame. -/
theorem C10_response_44_witness :
    (BSMBC.validate_response_packet
        ([0x02, 0x2c, 0x00, 0x53, 0x42, 0, 0, 0, 0, 0] ++
          (0x3f :: List.replicate 32 0) ++ [0x03]) = true →
      ([0x02, 0x2c, 0x00, 0x53, 0x42, 0, 0, 0, 0, 0] ++
          (0x3f :: List.replicate 32 0) ++ [0x03]).getD 43 0 = 0x03) ∧
    (([0x02, 0x2c, 0x00, 0x53, 0x42, 0, 0, 0, 0, 0] ++
          (0x3f :: List.replicate 32 0) ++ [0x03]).take 3 = BSMBC.RESPONSE_HEADER →
      BSMBC.validate_response_packet
        ([0x02, 0x2c, 0x00, 0x53, 0x42, 0, 0, 0, 0, 0] ++
          (0x3f :: List.replicate 32 0) ++ [0x03]) = true →
      BSMBC.calculate_checksum
        ([0x02, 0x2c, 0x00, 0x53, 0x42, 0, 0, 0, 0, 0] ++
          (0x3f :: List.replicate 32 0) ++ [0x03]) = 0) ∧
    (BSMBC.validate_response_packet
        ([0x02, 0x2c, 0x00, 0x53, 0x42, 0, 0, 0, 0, 0] ++
          (0x3f :: List.replicate 32 0) ++ [0x03]) = false →
      BSMBC.parse_device_status_packet
        ([0x02, 0x2c, 0x00, 0x53, 0x42, 0, 0, 0, 0, 0] ++
          (0x3f :: List.replicate 32 0) ++ [0x03]) = []) ∧
    (([0x02, 0x2c, 0x00, 0x53, 0x42, 0, 0, 0, 0, 0] ++
          (0x3f :: List.replicate 32 0) ++ [0x03]).take 3 = BSMBC.RESPONSE_HEADER →
      ¬ (([0x02, 0x2c, 0x00, 0x53, 0x42, 0, 0, 0, 0, 0] ++
            (0x3f :: List.replicate 32 0) ++ [0x03]).getD 43 0 = 0x03 ∧
          (BSMBC.calculate_checksum
              ([0x02, 0x2c, 0x00, 0x53, 0x42, 0, 0, 0, 0, 0] ++
                (0x3f :: List.replicate 32 0) ++ [0x03]) + 0x03) % 256 =
            ([0x02, 0x2c, 0x00, 0x53, 0x42, 0, 0, 0, 0, 0] ++
              (0x3f :: List.replicate 32 0) ++ [0x03]).getD 43 0) →
      BSMBC.validate_response_packet
        ([0x02, 0x2c, 0x00, 0x53, 0x42, 0, 0, 0, 0, 0] ++
          (0x3f :: List.replicate 32 0) ++ [0x03]) = false ∧
      BSMBC.parse_device_status_packet
        ([0x02, 0x2c, 0x00, 0x53, 0x42, 0, 0, 0, 0, 0] ++
          (0x3f :: List.replicate 32 0) ++ [0x03]) = []) :=
  C10_response_44_acceptance
    ([0x02, 0x2c, 0x00, 0x53, 0x42, 0, 0, 0, 0, 0] ++ (0x3f :: List.replicate 32 0) ++ [0x03])
    (by decide) (by decide)

/-! ## Claim C3 — checksum rules -/

/-- Claim C3 (counterexample): the frame the encoder builds for the special
room 1021 sets state byte 26, which lies outside the builder's checksum
range 0..22, so the byte written at index 43 differs from the XOR of bytes
0 through 42 of that frame. -/
theorem C3_checksum_counterexample :
    (BSMBC.Builder.create_current_state_payload [1021]).length = 46 ∧
    (BSMBC.Builder.create_current_state_payload [1021]).getD 43 0 ≠
      BSMBC.calculate_checksum (BSMBC.Builder.create_current_state_payload [1021]) := by
  decide

/-- Claim C3 (amended): every frame built by the encoder carries at byte 43
the XOR of bytes 0 through 22 (the builder's checksum range), not of bytes
0 through 42; and a response-framed packet accepted by the validator has
byte 43 equal to (XOR of bytes 0 through 42 + 0x03) mod 256. -/
theorem C3_checksum_amended (rooms : List Nat) (p : List Nat)
    (hresp : p.take 3 = BSMBC.RESPONSE_HEADER)
    (hval : BSMBC.validate_response_packet p = true) :
    (BSMBC.Builder.create_current_state_payload rooms).getD 43 0 =
      BSMBC.Builder.calculate_checksum (BSMBC.Builder.create_current_state_payload rooms) ∧
    p.getD 43 0 = (BSMBC.calculate_checksum p + 0x03) % 256 := by
  refine ⟨BSMBC.builder_byte43 rooms, ?_⟩
  have hs := BSMBC.validate_response_spec p hval
  rcases hs.2.2 with hreq | hr
  · exact absurd (hreq.1.symm.trans hresp) (by decide)
  · exact hr.2.2.symm

/-- Witness for the amended C3 at room set (301) and a concrete valid
44-byte response frame. -/
theorem C3_checksum_amended_witness :
    (BSMBC.Builder.create_current_state_payload [301]).getD 43 0 =
      BSMBC.Builder.calculate_checksum (BSMBC.Builder.create_current_state_payload [301]) ∧
    ([0x02, 0x2c, 0x00, 0x53, 0x42, 0, 0, 0, 0, 0] ++
        (0x3f :: List.replicate 32 0) ++ [0x03]).getD 43 0 =
      (BSMBC.calculate_checksum ([0x02, 0x2c, 0x00, 0x53, 0x42, 0, 0, 0, 0, 0] ++
        (0x3f :: List.replicate 32 0) ++ [0x03]) + 0x03) % 256 :=
  C3_checksum_amended [301]
    ([0x02, 0x2c, 0x00, 0x53, 0x42, 0, 0, 0, 0, 0] ++ (0x3f :: List.replicate 32 0) ++ [0x03])
    (by decide) (by decide)
